import Mathlib

/-!
Verification of the PrivyLedger local data store, its backup/restore pipeline
(`src/core/export.ts`, embedded below as `exportAllData` / `importData` /
`deleteAllData`), its crypto envelope (`src/core/crypto.ts`, embedded as
`encryptData` / `decryptData` / `hashPassphrase` / `verifyPassphrase`) and the
zustand loan store (`src/store/useLoanStore.ts`, embedded as `addPayment` and
`loanStoreUpdate`).

Modelling conventions:
* The Dexie database is a `Store`: one list of records per table, in the order
  declared in `db.ts` version 2 (accounts, transactions, loans, subscriptions,
  budgets, goals, recurringRules, creditCards).
* Export, import and wipe never inspect a record beyond its primary key `id`,
  so table records are embedded uniformly as `Record`, with the entity-specific
  fields folded into the opaque `fields` string.
* `db.transaction('rw', tables, body)` is Dexie's atomic transaction: if the
  body throws, every effect of the body is rolled back.  The embedding runs the
  body as an `Except` computation over the store and, on error, keeps the
  pre-transaction store — exactly Dexie's documented semantics.
* Asynchrony is elided: the spec's concurrency model (§5) makes the operations
  logically sequential, so each async function becomes a pure state transformer.
-/

namespace PrivyLedger

/-- A persisted record of any entity table.  `BaseEntity` of `types.ts`:
`id`, `createdAt`, `updatedAt`, optional `deletedAt` tombstone; the remaining
entity-specific fields are opaque to export/import/wipe and folded into
`fields`. -/
structure Record where
  id : String
  createdAt : String
  updatedAt : String
  deletedAt : Option String
  fields : String
deriving DecidableEq, Repr

/-- The Dexie database of `db.ts` (schema version 2): eight tables. -/
structure Store where
  accounts : List Record
  transactions : List Record
  loans : List Record
  subscriptions : List Record
  budgets : List Record
  goals : List Record
  recurringRules : List Record
  creditCards : List Record
deriving DecidableEq, Repr

/-- Dexie `Table.put` for a single record: insert-or-replace by primary key
`id`. -/
def putOne (tbl : List Record) (r : Record) : List Record :=
  if tbl.any (fun x => x.id == r.id) then
    tbl.map (fun x => if x.id == r.id then r else x)
  else
    tbl ++ [r]

/-- Dexie `Table.bulkPut(records)`: put each record in order; the last entry
wins on duplicate ids within the input. -/
def bulkPut (tbl : List Record) (rs : List Record) : List Record :=
  rs.foldl putOne tbl

/-- One table field of the JSON value produced by `JSON.parse` inside
`importData`.  The field can be absent (in which case the code coalesces it
with `?? []`), a well-formed array of records, or present but malformed
(not an array), in which case `bulkPut` throws inside the transaction. -/
inductive TableField where
  | absent
  | valid (records : List Record)
  | malformed
deriving DecidableEq, Repr

/-- The parsed argument of `importData` (the code's `ExportPayload` shape as it
comes out of `JSON.parse`, where any table field may be absent or malformed).
`exportedAt` is never read by `importData`. -/
structure ImportPayload where
  version : Int
  exportedAt : Option String
  accounts : TableField
  transactions : TableField
  loans : TableField
  subscriptions : TableField
  budgets : TableField
  goals : TableField
deriving DecidableEq, Repr

/-- `const EXPORT_VERSION = 1`. -/
def EXPORT_VERSION : Int := 1

/-- Errors thrown by `importData`: the explicit
`new Error('Unsupported export version')` (the spec's `VersionMismatchError`),
and the engine error raised by `bulkPut` on a malformed table array. -/
inductive ImportError where
  | unsupportedVersion
  | bulkPutFailed
deriving DecidableEq, Repr

/-- `db.<table>.bulkPut(data.<table> ?? [])`: an absent field is coalesced to
the empty array, a valid field is bulk-upserted, a malformed field makes
`bulkPut` throw. -/
def bulkPutField (tbl : List Record) : TableField → Except ImportError (List Record)
  | .absent => .ok (bulkPut tbl [])
  | .valid rs => .ok (bulkPut tbl rs)
  | .malformed => .error .bulkPutFailed

/-- The body of `importData`'s `db.transaction('rw', …)`: the six bulk upserts
run sequentially and the first failure aborts the body. -/
def importBody (p : ImportPayload) (s : Store) : Except ImportError Store := do
  let accounts ← bulkPutField s.accounts p.accounts
  let transactions ← bulkPutField s.transactions p.transactions
  let loans ← bulkPutField s.loans p.loans
  let subscriptions ← bulkPutField s.subscriptions p.subscriptions
  let budgets ← bulkPutField s.budgets p.budgets
  let goals ← bulkPutField s.goals p.goals
  return { s with
    accounts := accounts, transactions := transactions, loans := loans,
    subscriptions := subscriptions, budgets := budgets, goals := goals }

/-- `importData` of `export.ts`: version gate, then one atomic transaction over
the six exported tables.  The result is the observable store after the call
together with the error the call threw, if any; on a failed transaction Dexie
rolls back every effect of the body, so the pre-call store is kept. -/
def importData (p : ImportPayload) (s : Store) : Store × Option ImportError :=
  if p.version ≠ EXPORT_VERSION then
    (s, some .unsupportedVersion)
  else
    match importBody p s with
    | .ok s2 => (s2, none)
    | .error e => (s, some e)

/-- The code's `ExportPayload` interface as produced by `exportAllData`. -/
structure ExportPayload where
  version : Int
  exportedAt : String
  accounts : List Record
  transactions : List Record
  loans : List Record
  subscriptions : List Record
  budgets : List Record
  goals : List Record
deriving DecidableEq, Repr

/-- `exportAllData` of `export.ts`: `Table.toArray()` on six of the eight
tables (no tombstone filter is applied), stamped with `EXPORT_VERSION` and the
current time.  The final `JSON.stringify` is an injective serialization and is
elided; the payload value stands for the produced JSON string. -/
def exportAllData (s : Store) (exportedAt : String) : ExportPayload :=
  { version := EXPORT_VERSION
    exportedAt := exportedAt
    accounts := s.accounts
    transactions := s.transactions
    loans := s.loans
    subscriptions := s.subscriptions
    budgets := s.budgets
    goals := s.goals }

/-- `deleteAllData` of `export.ts`: one `rw` transaction clearing seven tables
(`creditCards` is in the database schema but is not in the transaction's table
list and is not cleared), followed by `localStorage.clear()`.  The second
argument and component model the auxiliary `localStorage` key-value pairs. -/
def deleteAllData (s : Store) (localStorageKV : List (String × String)) :
    Store × List (String × String) :=
  ({ accounts := []
     transactions := []
     loans := []
     subscriptions := []
     budgets := []
     goals := []
     recurringRules := []
     creditCards := s.creditCards }, [])

/-- All ids stored anywhere in the database (all eight tables). -/
def storeIds (s : Store) : List String :=
  (s.accounts ++ s.transactions ++ s.loans ++ s.subscriptions ++ s.budgets ++
    s.goals ++ s.recurringRules ++ s.creditCards).map Record.id

/-- All ids present anywhere in an export payload. -/
def payloadIds (p : ExportPayload) : List String :=
  (p.accounts ++ p.transactions ++ p.loans ++ p.subscriptions ++ p.budgets ++
    p.goals).map Record.id

/-- Spec claim C3, formalised: every record of every entity table of the store
appears in the payload produced by `exportAllData`. -/
def exportComplete (s : Store) (exportedAt : String) : Prop :=
  ∀ i ∈ storeIds s, i ∈ payloadIds (exportAllData s exportedAt)

/-- Spec claim C4, formalised: every entity table of the store is empty. -/
def allTablesEmpty (s : Store) : Prop :=
  s.accounts = [] ∧ s.transactions = [] ∧ s.loans = [] ∧ s.subscriptions = [] ∧
  s.budgets = [] ∧ s.goals = [] ∧ s.recurringRules = [] ∧ s.creditCards = []

/-- No table field of the payload is present-but-malformed (absent fields are
allowed). -/
def wellFormedFields (p : ImportPayload) : Prop :=
  p.accounts ≠ .malformed ∧ p.transactions ≠ .malformed ∧ p.loans ≠ .malformed ∧
  p.subscriptions ≠ .malformed ∧ p.budgets ≠ .malformed ∧ p.goals ≠ .malformed

/-! ## Crypto envelope (`crypto.ts`)

WebCrypto's PBKDF2 and AES-GCM are embedded symbolically, in the standard
ideal-primitive model: a derived key is determined by (and only by) the
passphrase/salt pair fed to PBKDF2, and an AEAD ciphertext opens exactly under
the key and IV it was produced with, yielding the original plaintext —
any other key or IV fails authentication.  Byte strings are `List Nat`;
`bufferToBase64` / `base64ToUint8Array` are mutually inverse re-encodings and
are elided, so an `Envelope` value stands for its base64 byte layout
`[16B salt][12B IV][ciphertext]` at the fixed offsets used by `decryptData`
(`slice(0,16)`, `slice(16,28)`, `slice(28)`). -/

/-- `const PBKDF2_ITERATIONS = 310_000`. -/
def PBKDF2_ITERATIONS : Nat := 310000

/-- The non-extractable AES-256-GCM `CryptoKey` produced by `deriveKey`:
determined by the passphrase and the salt (ideal PBKDF2-HMAC-SHA-256 at
`PBKDF2_ITERATIONS` iterations). -/
structure DerivedKey where
  passphrase : String
  salt : List Nat
deriving DecidableEq, Repr

/-- `deriveKey(passphrase, salt)` of `crypto.ts`. -/
def deriveKey (passphrase : String) (salt : List Nat) : DerivedKey :=
  { passphrase := passphrase, salt := salt }

/-- An AES-GCM ciphertext-with-tag, recorded symbolically as the key
parameters and IV it was sealed under together with the plaintext it seals. -/
structure AeadCiphertext where
  keyPass : String
  keySalt : List Nat
  iv : List Nat
  plaintext : String
deriving DecidableEq, Repr

/-- `crypto.subtle.encrypt({name:'AES-GCM', iv}, key, bytes)`. -/
def aeadEncrypt (key : DerivedKey) (iv : List Nat) (data : String) : AeadCiphertext :=
  { keyPass := key.passphrase, keySalt := key.salt, iv := iv, plaintext := data }

/-- `crypto.subtle.decrypt({name:'AES-GCM', iv}, key, ct)`: succeeds with the
sealed plaintext iff the key and IV are exactly the ones the ciphertext was
sealed under; otherwise the GCM tag check fails (`none` models the rejected
promise). -/
def aeadDecrypt (key : DerivedKey) (iv : List Nat) (ct : AeadCiphertext) : Option String :=
  if ct.keyPass = key.passphrase ∧ ct.keySalt = key.salt ∧ ct.iv = iv then
    some ct.plaintext
  else
    none

/-- The envelope returned by `encryptData`:
`[16B salt][12B IV][ciphertext]`, base64-encoded. -/
structure Envelope where
  salt : List Nat
  iv : List Nat
  ciphertext : AeadCiphertext
deriving DecidableEq, Repr

/-- `encryptData(data, passphrase)` of `crypto.ts`.  The two
`crypto.getRandomValues` draws (16-byte salt, 12-byte IV) are made explicit
arguments so that the sampled randomness is part of the function's input. -/
def encryptData (data passphrase : String) (salt iv : List Nat) : Envelope :=
  let key := deriveKey passphrase salt
  { salt := salt, iv := iv, ciphertext := aeadEncrypt key iv data }

/-- `decryptData(encoded, passphrase)` of `crypto.ts`: split the envelope at
the fixed offsets, re-derive the key from the embedded salt, attempt the AEAD
open.  `none` models the thrown `OperationError`. -/
def decryptData (env : Envelope) (passphrase : String) : Option String :=
  let key := deriveKey passphrase env.salt
  aeadDecrypt key env.iv env.ciphertext

/-- The all-zero 12-byte IV `new Uint8Array(12)` used by the verifier token. -/
def zeroIv : List Nat := List.replicate 12 0

/-- The fixed sentinel string `'pl-verify'` encrypted by `hashPassphrase`. -/
def SENTINEL : String := "pl-verify"

/-- The verifier token returned by `hashPassphrase`: `[16B salt][token]`,
base64-encoded, split by `verifyPassphrase` at `slice(0,16)` / `slice(16)`. -/
structure Verifier where
  salt : List Nat
  token : AeadCiphertext
deriving DecidableEq, Repr

/-- `hashPassphrase(passphrase)` of `crypto.ts`: derive a key from a fresh
16-byte salt (explicit argument, as in `encryptData`) and encrypt the sentinel
under the zero IV. -/
def hashPassphrase (passphrase : String) (salt : List Nat) : Verifier :=
  let key := deriveKey passphrase salt
  { salt := salt, token := aeadEncrypt key zeroIv SENTINEL }

/-- `verifyPassphrase(passphrase, stored)` of `crypto.ts`: re-derive the key
from the stored salt, attempt the AEAD open under the zero IV and compare with
the sentinel; the surrounding `try { … } catch { return false }` turns every
failure (here: the failed AEAD open) into `false`. -/
def verifyPassphrase (passphrase : String) (stored : Verifier) : Bool :=
  let key := deriveKey passphrase stored.salt
  match aeadDecrypt key zeroIv stored.token with
  | some plaintext => plaintext == SENTINEL
  | none => false

/-! ## Loan store (`useLoanStore.ts`)

The loan entity is embedded with its full field set from `types.ts`; money
amounts are minor units, i.e. integers.  The zustand store keeps an in-memory
`loans` list alongside the Dexie `db.loans` table; `update` and `addPayment`
write the same merged object to both. -/

/-- `LoanDirection` of `types.ts`. -/
inductive LoanDirection where
  | lent
  | borrowed
deriving DecidableEq, Repr

/-- `LoanStatus` of `types.ts`. -/
inductive LoanStatus where
  | active
  | partially_paid
  | settled
  | overdue
deriving DecidableEq, Repr

/-- `LoanPayment` of `types.ts`: an embedded child record of a loan. -/
structure LoanPayment where
  id : String
  amount : Int
  date : String
  notes : Option String
deriving DecidableEq, Repr

/-- `Loan` of `types.ts` (`BaseEntity` fields inlined).  The annual-percentage
`interestRate` is a JS number; it is untouched by every embedded operation and
is carried as an exact rational. -/
structure Loan where
  id : String
  createdAt : String
  updatedAt : String
  deletedAt : Option String
  direction : LoanDirection
  counterparty : String
  principalMinorUnits : Int
  currency : String
  remainingMinorUnits : Int
  interestRate : Option Rat
  startDate : String
  dueDate : Option String
  status : LoanStatus
  notes : Option String
  payments : List LoanPayment
deriving DecidableEq, Repr

/-- A `Partial<Loan>` patch: `none` means the field is absent from the patch.
`id` is excluded — Dexie's `Table.update` cannot modify the primary key. -/
structure LoanPatch where
  createdAt : Option String
  deletedAt : Option (Option String)
  direction : Option LoanDirection
  counterparty : Option String
  principalMinorUnits : Option Int
  currency : Option String
  remainingMinorUnits : Option Int
  interestRate : Option (Option Rat)
  startDate : Option String
  dueDate : Option (Option String)
  status : Option LoanStatus
  notes : Option (Option String)
  payments : Option (List LoanPayment)
deriving DecidableEq, Repr

/-- The merge `{ ...loan, ...patch, updatedAt: now() }` applied by the store's
`update` (the patch it passes to Dexie and to the in-memory map always carries
`updatedAt: now()`). -/
def applyLoanPatch (l : Loan) (p : LoanPatch) (t : String) : Loan :=
  { id := l.id
    createdAt := p.createdAt.getD l.createdAt
    updatedAt := t
    deletedAt := p.deletedAt.getD l.deletedAt
    direction := p.direction.getD l.direction
    counterparty := p.counterparty.getD l.counterparty
    principalMinorUnits := p.principalMinorUnits.getD l.principalMinorUnits
    currency := p.currency.getD l.currency
    remainingMinorUnits := p.remainingMinorUnits.getD l.remainingMinorUnits
    interestRate := p.interestRate.getD l.interestRate
    startDate := p.startDate.getD l.startDate
    dueDate := p.dueDate.getD l.dueDate
    status := p.status.getD l.status
    notes := p.notes.getD l.notes
    payments := p.payments.getD l.payments }

/-- Dexie `db.loans.update(id, changes)`: patches the record with primary key
`id` if present, and resolves with the number of records modified — `0` when
the id is absent; the promise never rejects for an absent id. -/
def dexieLoansUpdate (tbl : List Loan) (loanId : String) (p : LoanPatch) (t : String) :
    List Loan × Nat :=
  (tbl.map (fun l => if l.id == loanId then applyLoanPatch l p t else l),
   (tbl.filter (fun l => l.id == loanId)).length)

/-- `useLoanStore.update(id, data)`: writes `{ ...data, updatedAt: now() }` to
`db.loans` and maps the same merge over the in-memory list.  The result is
(the Dexie table and its resolved update count, the in-memory list). -/
def loanStoreUpdate (dbLoans memLoans : List Loan) (loanId : String) (p : LoanPatch)
    (t : String) : (List Loan × Nat) × List Loan :=
  (dexieLoansUpdate dbLoans loanId p t,
   memLoans.map (fun l => if l.id == loanId then applyLoanPatch l p t else l))

/-- `Omit<LoanPayment, 'id'>`: the payment data passed to `addPayment`. -/
structure PaymentData where
  amount : Int
  date : String
  notes : Option String
deriving DecidableEq, Repr

/-- `useLoanStore.addPayment(loanId, payment)` acting on the in-memory list
(the same merged object is written to `db.loans`).  The fresh `newId()` and
`now()` draws are explicit arguments.  A missing loan is an early return. -/
def addPayment (loans : List Loan) (loanId : String) (pd : PaymentData)
    (freshId t : String) : List Loan :=
  match loans.find? (fun l => l.id == loanId) with
  | none => loans
  | some loan =>
    let payment : LoanPayment :=
      { id := freshId, amount := pd.amount, date := pd.date, notes := pd.notes }
    let newRemaining := max 0 (loan.remainingMinorUnits - payment.amount)
    let newStatus : LoanStatus :=
      if newRemaining = 0 then .settled
      else if newRemaining < loan.principalMinorUnits then .partially_paid
      else .active
    loans.map (fun l =>
      if l.id == loanId then
        { l with
          payments := loan.payments ++ [payment]
          remainingMinorUnits := newRemaining
          status := newStatus
          updatedAt := t }
      else l)

/-! ## Concrete sample data used by witnesses and counterexamples -/

/-- A sample record with the given id. -/
def sampleRec (i : String) : Record :=
  { id := i, createdAt := "2026-01-01T00:00:00Z", updatedAt := "2026-01-01T00:00:00Z",
    deletedAt := none, fields := "sample" }

/-- The empty store. -/
def emptyStore : Store :=
  { accounts := [], transactions := [], loans := [], subscriptions := [], budgets := [],
    goals := [], recurringRules := [], creditCards := [] }

/-- A payload whose fields are all absent, at the given version. -/
def allAbsentPayload (v : Int) : ImportPayload :=
  { version := v, exportedAt := none, accounts := .absent, transactions := .absent,
    loans := .absent, subscriptions := .absent, budgets := .absent, goals := .absent }

/-! ## Theorems -/

/-- C5: for every payload whose version differs from the supported version 1,
`importData` throws the version-mismatch error (`'Unsupported export version'`)
and performs zero writes: the store after the failed call is the store before
it. -/
theorem importData_version_gate (p : ImportPayload) (s : Store)
    (h : p.version ≠ EXPORT_VERSION) :
    importData p s = (s, some ImportError.unsupportedVersion) := by
  simp [importData, h]

theorem importData_version_gate_witness :
    importData (allAbsentPayload 2) (emptyStore) =
      (emptyStore, some ImportError.unsupportedVersion) :=
  importData_version_gate (allAbsentPayload 2) emptyStore (by decide)

/-- C1: if any operation inside the import transaction fails (for a version-1
payload), `importData` surfaces the error and leaves every table of the store
exactly as it was before the call — the transaction rolls back the bulk
upserts already performed. -/
theorem importData_rollback_on_failure (p : ImportPayload) (s : Store) (e : ImportError)
    (hv : p.version = EXPORT_VERSION) (hb : importBody p s = .error e) :
    importData p s = (s, some e) := by
  simp [importData, hv, hb]

/-- A version-1 payload that is valid for accounts and transactions but
malformed at loans. -/
def c1Payload : ImportPayload :=
  { version := 1, exportedAt := some "2026-01-02T00:00:00Z",
    accounts := .valid [sampleRec "a9"], transactions := .valid [sampleRec "t9"],
    loans := .malformed, subscriptions := .absent, budgets := .absent, goals := .absent }

/-- A store holding one prior account record. -/
def c1Store : Store :=
  { accounts := [sampleRec "a1"], transactions := [], loans := [], subscriptions := [],
    budgets := [], goals := [], recurringRules := [], creditCards := [] }

theorem importData_rollback_on_failure_witness :
    importData c1Payload c1Store = (c1Store, some ImportError.bulkPutFailed) :=
  importData_rollback_on_failure c1Payload c1Store ImportError.bulkPutFailed rfl rfl

/-- A store holding one account, used to show a fields-missing import is a
no-op rather than a rejection. -/
def c6Store : Store :=
  { accounts := [sampleRec "a1"], transactions := [], loans := [], subscriptions := [],
    budgets := [], goals := [], recurringRules := [], creditCards := [] }

/-- C6 counterexample: a version-1 payload with every required table field
missing is not rejected — `importData` coalesces each missing field with
`?? []`, completes without any error, and leaves the store as it was.  No
malformed-payload rejection exists in the code. -/
theorem importData_missing_fields_accepted :
    importData (allAbsentPayload 1) c6Store = (c6Store, none) := rfl

/-- A table field that is not present-but-malformed bulk-upserts
successfully. -/
theorem bulkPutField_isOk (tbl : List Record) (f : TableField)
    (h : f ≠ TableField.malformed) : ∃ out, bulkPutField tbl f = .ok out := by
  cases f with
  | absent => exact ⟨_, rfl⟩
  | valid rs => exact ⟨_, rfl⟩
  | malformed => exact absurd rfl h

/-- The transaction body succeeds on any payload with no malformed table
field. -/
theorem importBody_isOk (p : ImportPayload) (s : Store) (hw : wellFormedFields p) :
    ∃ s2, importBody p s = .ok s2 := by
  obtain ⟨v, ea, fa, fb, fc, fd, fe, ff⟩ := p
  obtain ⟨h1, h2, h3, h4, h5, h6⟩ := hw
  cases fa <;> cases fb <;> cases fc <;> cases fd <;> cases fe <;> cases ff <;>
    first
      | exact ⟨_, rfl⟩
      | exact absurd rfl h1
      | exact absurd rfl h2
      | exact absurd rfl h3
      | exact absurd rfl h4
      | exact absurd rfl h5
      | exact absurd rfl h6

/-- C6 amended: `importData` never raises a structural/malformed-payload error
for missing table fields — every version-1 payload with no
present-but-malformed table value is accepted (each missing field is treated
as the empty array); the only structural failure is a present table value on
which the bulk upsert throws. -/
theorem importData_no_malformed_rejection (p : ImportPayload) (s : Store)
    (hv : p.version = EXPORT_VERSION) (hw : wellFormedFields p) :
    (importData p s).2 = none := by
  obtain ⟨s2, h2⟩ := importBody_isOk p s hw
  simp [importData, hv, h2]

theorem importData_no_malformed_rejection_witness :
    (importData
      { version := 1, exportedAt := none, accounts := TableField.valid [sampleRec "a2"],
        transactions := .absent, loans := .absent, subscriptions := .absent,
        budgets := .absent, goals := .absent } c6Store).2 = none :=
  importData_no_malformed_rejection _ c6Store rfl
    ⟨by decide, by decide, by decide, by decide, by decide, by decide⟩

/-- A store whose only content is one recurring rule. -/
def c3Store : Store :=
  { accounts := [], transactions := [], loans := [], subscriptions := [], budgets := [],
    goals := [], recurringRules := [sampleRec "rr1"], creditCards := [] }

/-- C3 counterexample: `exportAllData` does not read every table of the store —
the `recurringRules` table (and likewise `creditCards`) is absent from the
`ExportPayload` shape, so a store whose only record is a recurring rule
exports a payload that does not contain it. -/
theorem exportAllData_not_complete : ¬ exportComplete c3Store "2026-01-02T00:00:00Z" := by
  intro h
  exact absurd (h "rr1" (by decide)) (by decide)

/-- C3 amended: `exportAllData` reads the six tables accounts, transactions,
loans, subscriptions, budgets and goals in full — each payload field is the
table verbatim, so tombstoned records are included — and stamps version 1 and
the current time; the `recurringRules` and `creditCards` tables are omitted
from the export entirely. -/
theorem exportAllData_six_tables_verbatim (s : Store) (t : String) :
    (exportAllData s t).version = EXPORT_VERSION ∧
    (exportAllData s t).exportedAt = t ∧
    (exportAllData s t).accounts = s.accounts ∧
    (exportAllData s t).transactions = s.transactions ∧
    (exportAllData s t).loans = s.loans ∧
    (exportAllData s t).subscriptions = s.subscriptions ∧
    (exportAllData s t).budgets = s.budgets ∧
    (exportAllData s t).goals = s.goals :=
  ⟨rfl, rfl, rfl, rfl, rfl, rfl, rfl, rfl⟩

/-- A store whose only content is one credit card. -/
def c4Store : Store :=
  { accounts := [], transactions := [], loans := [], subscriptions := [], budgets := [],
    goals := [], recurringRules := [], creditCards := [sampleRec "cc1"] }

/-- C4 counterexample: after `deleteAllData`, not every entity table is empty —
the `creditCards` table is missing from the clearing transaction's table list,
so a store holding one credit card still holds it after the wipe. -/
theorem deleteAllData_not_all_empty :
    ¬ allTablesEmpty (deleteAllData c4Store [("pl_settings", "dark")]).1 := by
  intro h
  exact absurd h.2.2.2.2.2.2.2 (by decide)

/-- C4 amended: `deleteAllData` empties the seven tables listed in its
transaction (accounts, transactions, loans, subscriptions, budgets, goals,
recurringRules) and clears the auxiliary localStorage key-value settings, but
leaves the `creditCards` table untouched, for every prior store state. -/
theorem deleteAllData_clears_seven_tables (s : Store) (kv : List (String × String)) :
    deleteAllData s kv =
      ({ accounts := [], transactions := [], loans := [], subscriptions := [], budgets := [],
         goals := [], recurringRules := [], creditCards := s.creditCards }, []) := rfl

/-- C2: for every passphrase and plaintext, decrypting the envelope produced
by `encryptData` with the same passphrase recovers the plaintext exactly.
The salt and IV are the sizes `crypto.getRandomValues` is called with, so the
fixed-offset parse in `decryptData` recovers them. -/
theorem decryptData_encryptData (data passphrase : String) (salt iv : List Nat)
    (hsalt : salt.length = 16) (hiv : iv.length = 12) :
    decryptData (encryptData data passphrase salt iv) passphrase = some data := by
  simp [decryptData, encryptData, aeadDecrypt, aeadEncrypt, deriveKey]

theorem decryptData_encryptData_witness :
    decryptData (encryptData "version 1 backup" "correct horse" (List.replicate 16 7)
      (List.replicate 12 3)) "correct horse" = some "version 1 backup" :=
  decryptData_encryptData _ _ _ _ (by decide) (by decide)

/-- C8: `encryptData` embeds its fresh 16-byte salt and fresh 12-byte nonce at
the front of the envelope, so two calls with identical plaintext and
passphrase whose independently sampled randomness differs in the salt or in
the nonce never produce identical envelope bytes. -/
theorem encryptData_fresh_randomness_distinct (data passphrase : String)
    (salt1 iv1 salt2 iv2 : List Nat) (h : salt1 ≠ salt2 ∨ iv1 ≠ iv2) :
    encryptData data passphrase salt1 iv1 ≠ encryptData data passphrase salt2 iv2 := by
  intro he
  rcases h with h | h
  · exact h (congrArg Envelope.salt he)
  · exact h (congrArg Envelope.iv he)

theorem encryptData_fresh_randomness_distinct_witness :
    encryptData "backup" "pw" (List.replicate 16 0) (List.replicate 12 0) ≠
      encryptData "backup" "pw" (0 :: List.replicate 15 1) (List.replicate 12 0) :=
  encryptData_fresh_randomness_distinct _ _ _ _ _ _ (Or.inl (by decide))

/-- C9: `verifyPassphrase` against `hashPassphrase P` returns exactly the test
`Q == P`: the re-derived key opens the verifier token iff the passphrases
match, recovering the sentinel; any AEAD failure is caught and returned as
`false`, so a wrong passphrase never throws (the embedded `verifyPassphrase`
is a total function whose failure branch yields `false`). -/
theorem verifyPassphrase_hashPassphrase (P Q : String) (salt : List Nat)
    (hsalt : salt.length = 16) :
    verifyPassphrase Q (hashPassphrase P salt) = (Q == P) := by
  by_cases h : P = Q
  · subst h
    simp [verifyPassphrase, hashPassphrase, aeadDecrypt, aeadEncrypt, deriveKey]
  · have hne : Q ≠ P := fun hq => h hq.symm
    simp [verifyPassphrase, hashPassphrase, aeadDecrypt, aeadEncrypt, deriveKey, h, hne]

theorem verifyPassphrase_hashPassphrase_witness :
    verifyPassphrase "hunter2" (hashPassphrase "hunter2" (List.replicate 16 5)) =
      ("hunter2" == "hunter2") :=
  verifyPassphrase_hashPassphrase "hunter2" "hunter2" _ (by decide)

/-- A sample loan with half the principal outstanding. -/
def sampleLoan : Loan :=
  { id := "l1", createdAt := "2026-01-01T00:00:00Z", updatedAt := "2026-01-01T00:00:00Z",
    deletedAt := none, direction := .lent, counterparty := "Ann",
    principalMinorUnits := 10000, currency := "GBP", remainingMinorUnits := 5000,
    interestRate := none, startDate := "2026-01-01", dueDate := none,
    status := .partially_paid, notes := none, payments := [] }

/-- A `Partial<Loan>` patch with every field absent. -/
def emptyLoanPatch : LoanPatch :=
  { createdAt := none, deletedAt := none, direction := none, counterparty := none,
    principalMinorUnits := none, currency := none, remainingMinorUnits := none,
    interestRate := none, startDate := none, dueDate := none, status := none,
    notes := none, payments := none }

/-- C7 counterexample: `update` on an id absent from the table does not fail —
the call completes, Dexie's `update` resolves with `0` records modified, and
both the table and the in-memory list are unchanged.  No `NotFoundError` is
raised anywhere: the operation has no failure channel. -/
theorem loanStoreUpdate_absent_id_silent :
    loanStoreUpdate [sampleLoan] [sampleLoan] "missing" emptyLoanPatch
        "2026-02-01T00:00:00Z" =
      (([sampleLoan], 0), [sampleLoan]) := by decide

/-- Mapping the conditional patch over a list none of whose members carries
the patched id is the identity. -/
theorem map_patch_eq_self (L : List Loan) (loanId : String) (p : LoanPatch) (t : String)
    (hL : ∀ l ∈ L, l.id ≠ loanId) :
    L.map (fun l => if l.id == loanId then applyLoanPatch l p t else l) = L := by
  induction L with
  | nil => rfl
  | cons a as ih =>
    have ha : (a.id == loanId) = false :=
      beq_eq_false_iff_ne.mpr (hL a (List.mem_cons_self a as))
    simp only [List.map_cons, ha, Bool.false_eq_true, if_false,
      ih (fun l hl => hL l (List.mem_cons_of_mem a hl))]

/-- Filtering for an id no member carries yields the empty list. -/
theorem filter_id_eq_nil (L : List Loan) (loanId : String)
    (hL : ∀ l ∈ L, l.id ≠ loanId) :
    L.filter (fun l => l.id == loanId) = [] := by
  induction L with
  | nil => rfl
  | cons a as ih =>
    have ha : (a.id == loanId) = false :=
      beq_eq_false_iff_ne.mpr (hL a (List.mem_cons_self a as))
    simp [List.filter_cons, ha, ih (fun l hl => hL l (List.mem_cons_of_mem a hl))]

/-- C7 amended: for every table and every id absent from it, `update` resolves
successfully as a silent no-op — Dexie's `update` reports `0` records
modified, and neither the db table nor the in-memory list changes.  (The spec's
`NotFoundError` does not exist in the code.) -/
theorem loanStoreUpdate_absent_id_noop (dbLoans memLoans : List Loan) (loanId : String)
    (p : LoanPatch) (t : String)
    (hdb : ∀ l ∈ dbLoans, l.id ≠ loanId) (hmem : ∀ l ∈ memLoans, l.id ≠ loanId) :
    loanStoreUpdate dbLoans memLoans loanId p t = ((dbLoans, 0), memLoans) := by
  unfold loanStoreUpdate dexieLoansUpdate
  rw [map_patch_eq_self dbLoans loanId p t hdb, map_patch_eq_self memLoans loanId p t hmem,
    filter_id_eq_nil dbLoans loanId hdb]
  rfl

theorem loanStoreUpdate_absent_id_noop_witness :
    loanStoreUpdate [sampleLoan] [] "l2" emptyLoanPatch "2026-02-01T00:00:00Z" =
      (([sampleLoan], 0), []) :=
  loanStoreUpdate_absent_id_noop [sampleLoan] [] "l2" emptyLoanPatch "2026-02-01T00:00:00Z"
    (by decide) (by decide)

/-- C10: every loan carrying the paid id after `addPayment` has a
non-negative remaining balance (`Math.max(0, …)` clamps an overpayment to 0),
and its status is `settled` exactly when that clamped balance is 0. -/
theorem addPayment_clamps_and_settles (loans : List Loan) (loanId : String)
    (pd : PaymentData) (freshId t : String) (l : Loan)
    (hmem : l ∈ addPayment loans loanId pd freshId t) (hid : l.id = loanId) :
    0 ≤ l.remainingMinorUnits ∧
      (l.status = LoanStatus.settled ↔ l.remainingMinorUnits = 0) := by
  unfold addPayment at hmem
  cases hfind : loans.find? (fun x => x.id == loanId) with
  | none =>
    rw [hfind] at hmem
    have hnone := List.find?_eq_none.mp hfind l hmem
    simp [hid] at hnone
  | some loan =>
    rw [hfind] at hmem
    obtain ⟨x, hx, hxl⟩ := List.mem_map.mp hmem
    by_cases hcond : (x.id == loanId) = true
    · rw [if_pos hcond] at hxl
      subst hxl
      refine ⟨le_max_left 0 _, ?_⟩
      show (if max 0 (loan.remainingMinorUnits - pd.amount) = 0 then LoanStatus.settled
          else if max 0 (loan.remainingMinorUnits - pd.amount) < loan.principalMinorUnits
            then LoanStatus.partially_paid else LoanStatus.active) = LoanStatus.settled ↔
        max 0 (loan.remainingMinorUnits - pd.amount) = 0
      by_cases h0 : max 0 (loan.remainingMinorUnits - pd.amount) = 0
      · simp [h0]
      · rw [if_neg h0]
        constructor
        · intro hst
          by_cases h1 : max 0 (loan.remainingMinorUnits - pd.amount) < loan.principalMinorUnits
          · rw [if_pos h1] at hst; cases hst
          · rw [if_neg h1] at hst; cases hst
        · intro h; exact absurd h h0
    · rw [if_neg hcond] at hxl
      subst hxl
      exact absurd hid (by simpa using hcond)

/-- The result of paying 7000 into `sampleLoan`'s remaining 5000: clamped to 0
and settled. -/
def settledLoan : Loan :=
  { id := "l1", createdAt := "2026-01-01T00:00:00Z", updatedAt := "2026-03-02T00:00:00Z",
    deletedAt := none, direction := .lent, counterparty := "Ann",
    principalMinorUnits := 10000, currency := "GBP", remainingMinorUnits := 0,
    interestRate := none, startDate := "2026-01-01", dueDate := none,
    status := .settled, notes := none,
    payments := [{ id := "p1", amount := 7000, date := "2026-03-01", notes := none }] }

theorem addPayment_clamps_and_settles_witness :
    0 ≤ settledLoan.remainingMinorUnits ∧
      (settledLoan.status = LoanStatus.settled ↔ settledLoan.remainingMinorUnits = 0) :=
  addPayment_clamps_and_settles [sampleLoan] "l1"
    { amount := 7000, date := "2026-03-01", notes := none } "p1" "2026-03-02T00:00:00Z"
    settledLoan (by decide) rfl

end PrivyLedger
